import Mathlib

/-!
Shallow embedding of the continuous-improvement subsystem of the Trade-base
repository: the task scheduler (`continuous_improvement_engine.py`), the
four-stage optimization pipeline (`optimization_runner.py`) and the
performance analyzer (`performance_analyzer.py`).

Timestamps are modelled as integer seconds (a Python `datetime` is an opaque
instant; `timedelta(hours=1)` is 3600, etc.).  External collaborators
(database, Discord notifier, backtest/deploy infrastructure) are explicit
parameters: fallible external calls are `Except String` values and the
notifier is a record of flags saying which of its methods raise.

Concrete rational constants are written with `mkRat` throughout so that
closed propositions about them evaluate by kernel reduction.
-/

namespace TradeBase

/-- Opaque result payload of a handler or external routine (a Python dict is
modelled as an association list of string keys and string values; no claim
inspects the payloads). -/
abbrev Dict := List (String × String)

/-- A metrics dictionary: metric name to numeric value. -/
abbrev Metrics := List (String × ℚ)

/-- Python `metrics.get(key, default)` on a metrics dict. -/
def metricsGetD : Metrics → String → ℚ → ℚ
  | [], _, d => d
  | (k, v) :: rest, key, d => if k = key then v else metricsGetD rest key d

/-- Python `metrics.get(key)` (no default, `None` when missing). -/
def metricsGet : Metrics → String → Option ℚ
  | [], _ => none
  | (k, v) :: rest, key => if k = key then some v else metricsGet rest key

/-- The `OptimizationType` enum of `continuous_improvement_engine.py`. -/
inductive OptimizationType
  | hyperparameter
  | featureSelection
  | strategyWeights
  | modelRetrain
  | riskParams
deriving DecidableEq, Repr

/-- The Python repr suffix of an `OptimizationType` member. -/
def OptimizationType.pyName : OptimizationType → String
  | .hyperparameter => "HYPERPARAMETER"
  | .featureSelection => "FEATURE_SELECTION"
  | .strategyWeights => "STRATEGY_WEIGHTS"
  | .modelRetrain => "MODEL_RETRAIN"
  | .riskParams => "RISK_PARAMS"

/-- The `TaskStatus` enum of `continuous_improvement_engine.py`. -/
inductive TaskStatus
  | pending
  | running
  | completed
  | failed
deriving DecidableEq, Repr

/-- The `OptimizationTask` dataclass of `continuous_improvement_engine.py`. -/
structure OptimizationTask where
  taskId : String
  taskType : OptimizationType
  componentId : String
  frequency : String
  priority : Int := 5
  config : Dict := []
  lastRunAt : Option Int := none
  nextRunAt : Option Int := none
  status : TaskStatus := .pending
  lastResult : Option Dict := none
  lastError : Option String := none
  consecutiveFailures : Nat := 0
  enabled : Bool := true
deriving DecidableEq, Repr

/-- `ContinuousImprovementEngine._calculate_next_run`: the next run time for a
frequency, computed from the current time `now` (seconds). -/
def calculateNextRun (now : Int) (frequency : String) : Int :=
  if frequency = "hourly" then now + 3600
  else if frequency = "daily" then now + 86400
  else if frequency = "weekly" then now + 604800
  else if frequency = "minute" then now + 60
  else now + 86400

/-- The per-task due test performed by
`ContinuousImprovementEngine._process_pending_tasks`: disabled tasks and
tasks with `status == RUNNING` are skipped (`continue`), and a task is
dispatched only when `task.next_run_at` is truthy (not `None`) and
`task.next_run_at <= now`. -/
def isDue (now : Int) (task : OptimizationTask) : Bool :=
  if task.enabled = false then false
  else if task.status = TaskStatus.running then false
  else
    match task.nextRunAt with
    | some t => decide (t ≤ now)
    | none => false

/-- `ContinuousImprovementEngine._process_pending_tasks`: the sublist of
tasks for which the poll scan dispatches an execution
(`asyncio.create_task(self._execute_task(task))`). -/
def processPendingTasks (now : Int) (tasks : List OptimizationTask) :
    List OptimizationTask :=
  tasks.filter (isDue now)

/-- The notification lifecycle events the engine can emit to Discord. -/
inductive Event
  | taskStarted
  | taskCompleted
  | taskFailed
  | taskDisabled
deriving DecidableEq, Repr

/-- Behaviour of an injected Discord notifier inside `_execute_task`: each
flag says whether the corresponding `notify_*` coroutine raises when
awaited.  `ContinuousImprovementEngine.discord` being `None` is modelled as
`Option.none` at the call sites. -/
structure NotifierBehavior where
  raiseTaskStarted : Bool := false
  raiseTaskCompleted : Bool := false
  raiseTaskFailed : Bool := false
  raiseTaskDisabled : Bool := false
deriving DecidableEq, Repr

/-- The handler registry `ContinuousImprovementEngine._task_handlers`:
`None` for a type means no handler is registered; a handler either returns
a result dict or raises (returns `Except.error`). -/
abbrev HandlerMap :=
  OptimizationType → Option (OptimizationTask → Except String Dict)

/-- The handler lookup and invocation inside `_execute_task`: a missing
handler raises `ValueError(f"No handler registered for ...")`, and a handler
exception propagates as `Except.error`. -/
def lookupHandler (handlers : HandlerMap) (task : OptimizationTask) :
    Except String Dict :=
  match handlers task.taskType with
  | none =>
      .error ("No handler registered for OptimizationType." ++
        task.taskType.pyName)
  | some h => h task

/-- The first two statements of `_execute_task`: mark the task running and
record `last_run_at = utcnow()`. -/
def startTask (tStart : Int) (task : OptimizationTask) : OptimizationTask :=
  { task with status := .running, lastRunAt := some tStart }

/-- Outcome of one `_execute_task` coroutine: the final task state, the
notification events successfully delivered, whether `_persist_task` in the
`finally` block ran, and whether an exception escaped the coroutine. -/
structure ExecResult where
  task : OptimizationTask
  events : List Event
  persisted : Bool
  escaped : Bool
deriving DecidableEq, Repr

/-- The `except Exception` block of `_execute_task` (entered with exception
message `msg` and the task state at the time of the exception): mark the
task failed, record the error, bump `consecutive_failures`, notify failure,
and after 5 consecutive failures disable the task and notify that.  A raise
from a `notify_*` call inside this block propagates out of the coroutine
(the `finally` persist still runs). -/
def executeTaskExcept (discord : Option NotifierBehavior) (msg : String)
    (task : OptimizationTask) (evts : List Event) : ExecResult :=
  let taskF := { task with
    status := .failed, lastError := some msg,
    consecutiveFailures := task.consecutiveFailures + 1 }
  match discord with
  | some nb =>
      if nb.raiseTaskFailed then
        { task := taskF, events := evts, persisted := true, escaped := true }
      else
        let evts := evts ++ [Event.taskFailed]
        if 5 ≤ taskF.consecutiveFailures then
          let taskD := { taskF with enabled := false }
          if nb.raiseTaskDisabled then
            { task := taskD, events := evts, persisted := true, escaped := true }
          else
            { task := taskD, events := evts ++ [Event.taskDisabled],
              persisted := true, escaped := false }
        else
          { task := taskF, events := evts, persisted := true, escaped := false }
  | none =>
      if 5 ≤ taskF.consecutiveFailures then
        { task := { taskF with enabled := false }, events := evts,
          persisted := true, escaped := false }
      else
        { task := taskF, events := evts, persisted := true, escaped := false }

/-- The `try`/`except`/`finally` region of `_execute_task`, entered with the
task already marked running.  On handler success the task is completed, the
failure counter reset and `next_run_at` recomputed from a fresh
`utcnow()` (`tFinish`); note that `notify_task_completed` is awaited inside
the `try`, so a raise there falls into the `except` block. -/
def executeTaskBody (discord : Option NotifierBehavior)
    (handlers : HandlerMap) (tFinish : Int) (task1 : OptimizationTask)
    (evts : List Event) : ExecResult :=
  match lookupHandler handlers task1 with
  | .ok result =>
      let task2 := { task1 with
        status := .completed, lastResult := some result,
        consecutiveFailures := 0,
        nextRunAt := some (calculateNextRun tFinish task1.frequency) }
      match discord with
      | some nb =>
          if nb.raiseTaskCompleted then
            executeTaskExcept (some nb) "notify_task_completed raised" task2 evts
          else
            { task := task2, events := evts ++ [Event.taskCompleted],
              persisted := true, escaped := false }
      | none =>
          { task := task2, events := evts, persisted := true, escaped := false }
  | .error msg => executeTaskExcept discord msg task1 evts

/-- `ContinuousImprovementEngine._execute_task`.  `tStart` is the
`utcnow()` recorded into `last_run_at` at the beginning; `tFinish` is the
`utcnow()` used by `_calculate_next_run` on the success path.
`notify_task_started` is awaited before the `try`/`finally`, so a raise
there escapes the coroutine without persisting. -/
def executeTask (discord : Option NotifierBehavior) (handlers : HandlerMap)
    (tStart tFinish : Int) (task0 : OptimizationTask) : ExecResult :=
  let task1 := startTask tStart task0
  match discord with
  | some nb =>
      if nb.raiseTaskStarted then
        { task := task1, events := [], persisted := false, escaped := true }
      else
        executeTaskBody (some nb) handlers tFinish task1 [Event.taskStarted]
  | none => executeTaskBody none handlers tFinish task1 []

/-- Sequential repetition of `_execute_task` on the same task (the scenario
of the spec: the same handler outcome and clock readings each round),
accumulating the delivered notification events. -/
def executeTimes (discord : Option NotifierBehavior) (handlers : HandlerMap)
    (tStart tFinish : Int) :
    Nat → OptimizationTask → OptimizationTask × List Event
  | 0, task => (task, [])
  | n + 1, task =>
      let r := executeTask discord handlers tStart tFinish task
      let rest := executeTimes discord handlers tStart tFinish n r.task
      (rest.1, r.events ++ rest.2)

/-! ## Pipeline runner (`optimization_runner.py`) -/

/-- The `OptimizationStep` enum of `optimization_runner.py`. -/
inductive OptimizationStep
  | analyze
  | identify
  | optimize
  | deploy
deriving DecidableEq, Repr

/-- The categories the `_step_optimize` keyword chain can select, each bound
to one optimization routine and one key of the `optimizations` dict. -/
inductive OptCategory
  | hyperparameters
  | model
  | features
  | riskParams
  | strategyWeights
deriving DecidableEq, Repr

/-- The `optimizations` dict built by `_step_optimize`: one slot per
category key, overwritten on repeat invocation, plus the backtest results
added at the end. -/
structure Optimizations where
  hyperparameters : Option Dict := none
  model : Option Dict := none
  features : Option Dict := none
  riskParams : Option Dict := none
  strategyWeights : Option Dict := none
  backtestResults : Option Metrics := none
deriving DecidableEq, Repr

/-- The empty `optimizations = \x7b\x7d` dict. -/
def emptyOptimizations : Optimizations := {}

/-- The parts of the Analyze stage `findings` consumed by later stages:
`regime_performance` (regime name to its performance dict) and the optional
`last_trained` instant from `model_performance`. -/
structure AnalyzeData where
  regimePerformance : List (String × Metrics) := []
  lastTrained : Option Int := none
deriving DecidableEq, Repr

/-- The `findings` payload of an `OptimizationResult`, one shape per stage
(Python uses heterogeneous dicts). -/
inductive Findings
  | emptyF
  | analyzeF (d : AnalyzeData)
  | identifyF (opportunitiesCount : Nat)
  | optimizeF (optimizations : Optimizations)
  | deployF (abTestId : String) (rollout : String)
deriving DecidableEq, Repr

/-- The `OptimizationResult` dataclass of `optimization_runner.py`.
`metricsAfter` values are optional because `_step_optimize` stores
`backtest_results.get('sharpe_ratio')`, which may be `None`. -/
structure OptimizationResult where
  step : OptimizationStep
  success : Bool
  findings : Findings
  recommendations : List String
  actionsTaken : List String
  metricsBefore : Metrics
  metricsAfter : List (String × Option ℚ)
  timestamp : Int
  error : Option String := none
deriving DecidableEq, Repr

/-- The model-performance payload of `_get_model_performance`: a metrics
dict plus the optional `last_trained` instant. -/
structure ModelPerf where
  metrics : Metrics := []
  lastTrained : Option Int := none
deriving DecidableEq, Repr

/-- The external collaborators of the pipeline runner, one `Except` value
per awaited helper call (the placeholder helpers of the source are one
particular instantiation, `defaultServices` below). -/
structure ExternalServices where
  tradeStats : Except String Metrics
  strategyPerformance : Except String Metrics
  modelPerformance : Except String ModelPerf
  regimePerformance : Except String (List (String × Metrics))
  optimizeHyperparameters : Except String Dict
  retrainModel : Except String Dict
  optimizeFeatures : Except String Dict
  optimizeRiskParams : Except String Dict
  optimizeStrategyWeights : Except String Dict
  runBacktests : Except String Metrics
  deployToStaging : Except String Unit
  runSmokeTests : Except String Bool
  startAbTest : Except String String
  checkAbTestResults : Except String Bool
  updateAbTestTraffic : Except String Unit
  promoteToProduction : Except String Unit
  rollback : Except String Unit
  getLiveMetrics : Except String Metrics

/-- The placeholder helper implementations of `optimization_runner.py`
(`_get_trade_stats` and friends) as one `ExternalServices` value. -/
def defaultServices : ExternalServices where
  tradeStats := .ok [("win_rate", mkRat 55 100), ("profit_factor", mkRat 16 10),
    ("total_trades", 120), ("net_pnl", 5000)]
  strategyPerformance := .ok [("sharpe_ratio", mkRat 12 10),
    ("max_drawdown", mkRat 8 100), ("sortino_ratio", mkRat 18 10)]
  modelPerformance := .ok { metrics := [("accuracy", mkRat 62 100),
    ("precision", mkRat 58 100), ("recall", mkRat 65 100)] }
  regimePerformance := .ok [("trending_up", [("win_rate", mkRat 65 100)]),
    ("trending_down", [("win_rate", mkRat 45 100)]),
    ("ranging", [("win_rate", mkRat 50 100)]),
    ("volatile", [("win_rate", mkRat 40 100)])]
  optimizeHyperparameters := .ok [("stop_loss", "0.02"), ("take_profit", "0.04")]
  retrainModel := .ok [("new_version", "v2.1"), ("accuracy", "0.65")]
  optimizeFeatures := .ok [("selected_features", "rsi, ema, volume")]
  optimizeRiskParams := .ok [("max_position_size", "0.15"),
    ("daily_loss_limit", "0.05")]
  optimizeStrategyWeights := .ok [("strategy_a", "0.5"), ("strategy_b", "0.3"),
    ("strategy_c", "0.2")]
  runBacktests := .ok [("sharpe_ratio", mkRat 14 10), ("win_rate", mkRat 58 100)]
  deployToStaging := .ok ()
  runSmokeTests := .ok true
  startAbTest := .ok "ab_test_123"
  checkAbTestResults := .ok true
  updateAbTestTraffic := .ok ()
  promoteToProduction := .ok ()
  rollback := .ok ()
  getLiveMetrics := .ok [("win_rate", mkRat 57 100), ("sharpe_ratio", mkRat 13 10)]

/-! ### String helpers (Python formatting and substring matching) -/

/-- Boolean prefix test on character lists. -/
def listPrefixEq : List Char → List Char → Bool
  | [], _ => true
  | _ :: _, [] => false
  | a :: as, b :: bs => a = b && listPrefixEq as bs

/-- Helper of `strContains`: does `pat` occur inside the list? -/
def strContainsAux (pat : List Char) : List Char → Bool
  | [] => listPrefixEq pat []
  | c :: rest => listPrefixEq pat (c :: rest) || strContainsAux pat rest

/-- Python `pat in s` substring test. -/
def strContains (s pat : String) : Bool :=
  strContainsAux pat.data s.data

/-- Python `s.startswith(pat)`. -/
def strStartsWith (s pat : String) : Bool :=
  listPrefixEq pat.data s.data

/-- Python `s.lower()` (character-by-character, as used on the ASCII
recommendation strings). -/
def strToLower (s : String) : String :=
  ⟨s.data.map Char.toLower⟩

/-- Python `f"\x7bq:.1%\x7d"` fixed one-decimal percent formatting (CPython
rounds half to even on the decimal representation of the float; this
embedding rounds half away from zero, which agrees on every value the
claims evaluate). -/
def fmtPct1 (q : ℚ) : String :=
  let m : Int := ⌊q * 1000 + 1/2⌋
  toString (m.fdiv 10) ++ "." ++ toString (m.fmod 10) ++ "%"

/-- Python `f"\x7bq:.2f\x7d"` fixed two-decimal formatting (same rounding
note as `fmtPct1`). -/
def fmtFixed2 (q : ℚ) : String :=
  let m : Int := ⌊q * 100 + 1/2⌋
  let frac := m.fmod 100
  toString (m.fdiv 100) ++ "." ++
    (if frac < 10 then "0" ++ toString frac else toString frac)

/-- A representative textual rendering of a result dict (Python interpolates
the dict repr into the action strings; no claim inspects these renderings). -/
def dictRepr (d : Dict) : String :=
  toString (d.map (fun p => p.1 ++ ": " ++ p.2))

/-! ### Stage 1: `_step_analyze` -/

/-- The sequence of awaited data-gathering calls of `_step_analyze`
(`_get_trade_stats`, `_get_strategy_performance`, `_get_model_performance`,
`_get_regime_performance`); the first raising call aborts into the stage's
`except` block. -/
def analyzeFetch (svc : ExternalServices) :
    Except String (Metrics × Metrics × ModelPerf × List (String × Metrics)) := do
  let ts ← svc.tradeStats
  let sp ← svc.strategyPerformance
  let mp ← svc.modelPerformance
  let rp ← svc.regimePerformance
  pure (ts, sp, mp, rp)

/-- `OptimizationRunner._step_analyze`. -/
def stepAnalyze (now : Int) (svc : ExternalServices) : OptimizationResult :=
  match analyzeFetch svc with
  | .ok (ts, sp, mp, rp) =>
      { step := .analyze, success := true,
        findings := .analyzeF ⟨rp, mp.lastTrained⟩,
        recommendations := [],
        actionsTaken := ["Gathered trade statistics",
          "Analyzed strategy performance", "Evaluated model accuracy",
          "Checked regime performance"],
        metricsBefore := [
          ("win_rate_7d", metricsGetD ts "win_rate" 0),
          ("profit_factor_7d", metricsGetD ts "profit_factor" 0),
          ("total_trades_7d", metricsGetD ts "total_trades" 0),
          ("net_pnl_7d", metricsGetD ts "net_pnl" 0),
          ("sharpe_ratio", metricsGetD sp "sharpe_ratio" 0),
          ("max_drawdown", metricsGetD sp "max_drawdown" 0),
          ("sortino_ratio", metricsGetD sp "sortino_ratio" 0),
          ("model_accuracy", metricsGetD mp.metrics "accuracy" 0)],
        metricsAfter := [], timestamp := now, error := none }
  | .error e =>
      { step := .analyze, success := false, findings := .emptyF,
        recommendations := [], actionsTaken := [], metricsBefore := [],
        metricsAfter := [], timestamp := now, error := some e }

/-! ### Stage 2: `_step_identify` -/

/-- Section 2.1 of `_step_identify`: win-rate thresholds. -/
def identifyWinRateRecs (wr : ℚ) : List String :=
  if wr < mkRat 45 100 then
    ["CRITICAL: Win rate " ++ fmtPct1 wr ++
      " below threshold. Recommend hyperparameter optimization."]
  else if wr < mkRat 50 100 then
    ["WARNING: Win rate " ++ fmtPct1 wr ++
      " suboptimal. Consider strategy weight adjustment."]
  else []

/-- Section 2.2 of `_step_identify`: drawdown thresholds. -/
def identifyDrawdownRecs (dd : ℚ) : List String :=
  if dd > mkRat 15 100 then
    ["CRITICAL: Max drawdown " ++ fmtPct1 dd ++
      " exceeds limit. Recommend risk parameter optimization."]
  else if dd > mkRat 10 100 then
    ["WARNING: Max drawdown " ++ fmtPct1 dd ++
      " elevated. Review position sizing."]
  else []

/-- Section 2.3 of `_step_identify`: model accuracy thresholds. -/
def identifyAccuracyRecs (acc : ℚ) : List String :=
  if acc < mkRat 55 100 then
    ["CRITICAL: Model accuracy " ++ fmtPct1 acc ++
      " too low. Recommend model retraining."]
  else if acc < mkRat 60 100 then
    ["WARNING: Model accuracy " ++ fmtPct1 acc ++
      " declining. Consider feature engineering."]
  else []

/-- Section 2.4 of `_step_identify`: Sharpe-ratio thresholds. -/
def identifySharpeRecs (sh : ℚ) : List String :=
  if sh < mkRat 5 10 then
    ["CRITICAL: Sharpe ratio " ++ fmtFixed2 sh ++
      " below acceptable. Full strategy review needed."]
  else if sh < 1 then
    ["WARNING: Sharpe ratio " ++ fmtFixed2 sh ++
      " suboptimal. Optimize strategy weights."]
  else []

/-- Section 2.5 of `_step_identify`: one recommendation per regime whose
win rate (default 0.5) is below 0.40, in iteration order. -/
def identifyRegimeRecs (rp : List (String × Metrics)) : List String :=
  (rp.filter (fun p => metricsGetD p.2 "win_rate" (mkRat 1 2) < mkRat 40 100)).map
    (fun p => "Poor performance in " ++ p.1 ++
      " regime. Consider regime-specific model.")

/-- Section 2.6 of `_step_identify`: stale-model check; `days_since` is the
Python `timedelta.days` floor of the elapsed seconds. -/
def identifyStaleRecs (now : Int) (lastTrained : Option Int) : List String :=
  match lastTrained with
  | some lt =>
      let daysSince := (now - lt).fdiv 86400
      if daysSince > 30 then
        ["Model hasn\x27t been retrained in " ++ toString daysSince ++
          " days. Schedule retraining."]
      else []
  | none => []

/-- `OptimizationRunner._step_identify`.  Reads `metrics_before` and the
analysis findings of the Analyze result (a non-Analyze findings payload
behaves like the empty dict, matching `findings.get(..., \x7b\x7d)`). -/
def stepIdentify (now : Int) (analyzeResult : OptimizationResult) :
    OptimizationResult :=
  let metrics := analyzeResult.metricsBefore
  let d : AnalyzeData :=
    match analyzeResult.findings with
    | .analyzeF a => a
    | _ => {}
  let recommendations :=
    identifyWinRateRecs (metricsGetD metrics "win_rate_7d" (mkRat 1 2)) ++
    identifyDrawdownRecs (metricsGetD metrics "max_drawdown" 0) ++
    identifyAccuracyRecs (metricsGetD metrics "model_accuracy" (mkRat 6 10)) ++
    identifySharpeRecs (metricsGetD metrics "sharpe_ratio" 1) ++
    identifyRegimeRecs d.regimePerformance ++
    identifyStaleRecs now d.lastTrained
  { step := .identify, success := true,
    findings := .identifyF recommendations.length,
    recommendations := recommendations,
    actionsTaken := ["Evaluated win rate trends", "Checked drawdown limits",
      "Analyzed model performance", "Reviewed regime performance"],
    metricsBefore := analyzeResult.metricsBefore, metricsAfter := [],
    timestamp := now, error := none }

/-! ### Stage 3: `_step_optimize` -/

/-- The `if`/`elif` keyword chain in the body of the recommendation loop of
`_step_optimize`: case-insensitive substring checks tried in the source
order, first hit selecting the routine (`None` when nothing matches). -/
def matchCategory (rec : String) : Option OptCategory :=
  let r := strToLower rec
  if strContains r "hyperparameter" then some .hyperparameters
  else if strContains r "model retraining" then some .model
  else if strContains r "feature" then some .features
  else if strContains r "risk" || strContains r "drawdown" then
    some .riskParams
  else if strContains r "strategy weight" then some .strategyWeights
  else none

/-- Modelled from the spec words for the same chain: the ordered keyword
table ("hyperparameter", "model retraining", "feature", "risk"/"drawdown",
"strategy weight") and a first-match lookup, used to compare against
`matchCategory`. -/
def keywordTable : List (List String × OptCategory) :=
  [(["hyperparameter"], .hyperparameters),
   (["model retraining"], .model),
   (["feature"], .features),
   (["risk", "drawdown"], .riskParams),
   (["strategy weight"], .strategyWeights)]

/-- Modelled from the spec words: the routine selected for a recommendation
is the one of the first keyword group (in `keywordTable` order) containing a
case-insensitive substring match. -/
def specFirstMatch (rec : String) : Option OptCategory :=
  (keywordTable.find? (fun kc =>
    kc.1.any (fun k => strContains (strToLower rec) k))).map (fun kc => kc.2)

/-- The optimization routine bound to each category
(`_optimize_hyperparameters`, `_retrain_model`, `_optimize_features`,
`_optimize_risk_params`, `_optimize_strategy_weights`). -/
def invokeRoutine (svc : ExternalServices) : OptCategory → Except String Dict
  | .hyperparameters => svc.optimizeHyperparameters
  | .model => svc.retrainModel
  | .features => svc.optimizeFeatures
  | .riskParams => svc.optimizeRiskParams
  | .strategyWeights => svc.optimizeStrategyWeights

/-- The `actions_taken` entry appended for each routine invocation. -/
def actionMsg : OptCategory → Dict → String
  | .hyperparameters, r => "Optimized hyperparameters: " ++ dictRepr r
  | .model, r => "Retrained model: " ++ dictRepr r
  | .features, r => "Optimized features: " ++ dictRepr r
  | .riskParams, r => "Optimized risk params: " ++ dictRepr r
  | .strategyWeights, r => "Optimized strategy weights: " ++ dictRepr r

/-- Store a routine result under its category key of the `optimizations`
dict (repeat invocations overwrite). -/
def applyOpt (o : Optimizations) (c : OptCategory) (r : Dict) : Optimizations :=
  match c with
  | .hyperparameters => { o with hyperparameters := some r }
  | .model => { o with model := some r }
  | .features => { o with features := some r }
  | .riskParams => { o with riskParams := some r }
  | .strategyWeights => { o with strategyWeights := some r }

/-- The recommendation loop of `_step_optimize`, accumulating
`actions_taken` and the `optimizations` dict; a raising routine aborts the
whole stage into its `except` block. -/
def stepOptimizeCore (svc : ExternalServices) :
    List String → List String × Optimizations →
    Except String (List String × Optimizations)
  | [], acc => .ok acc
  | rec :: rest, acc =>
      match matchCategory rec with
      | none => stepOptimizeCore svc rest acc
      | some c =>
          match invokeRoutine svc c with
          | .error e => .error e
          | .ok r =>
              stepOptimizeCore svc rest
                (acc.1 ++ [actionMsg c r], applyOpt acc.2 c r)

/-- `OptimizationRunner._step_optimize`. -/
def stepOptimize (now : Int) (svc : ExternalServices)
    (identifyResult : OptimizationResult) : OptimizationResult :=
  match (do
      let ao ← stepOptimizeCore svc identifyResult.recommendations
        ([], emptyOptimizations)
      let bt ← svc.runBacktests
      pure (ao.1, { ao.2 with backtestResults := some bt }, bt) :
      Except String (List String × Optimizations × Metrics)) with
  | .ok (acts, opts, bt) =>
      { step := .optimize, success := true, findings := .optimizeF opts,
        recommendations := [], actionsTaken := acts,
        metricsBefore := identifyResult.metricsBefore,
        metricsAfter := [("backtest_sharpe", metricsGet bt "sharpe_ratio")],
        timestamp := now, error := none }
  | .error e =>
      { step := .optimize, success := false, findings := .emptyF,
        recommendations := [], actionsTaken := [],
        metricsBefore := identifyResult.metricsBefore, metricsAfter := [],
        timestamp := now, error := some e }

/-! ### Stage 4: `_step_deploy` -/

/-- The external calls `_step_deploy` can make, in the order they occur,
recorded as an execution trace. -/
inductive DeployCall
  | deployToStaging
  | runSmokeTests
  | startAbTest
  | checkAbTestResults
  | updateAbTestTraffic
  | promoteToProduction
  | getLiveMetrics
  | rollback
deriving DecidableEq, Repr

/-- The stage-local outcome of `_step_deploy` before it is wrapped into an
`OptimizationResult` (the wrapping is uniform across branches). -/
structure DeployOutcome where
  success : Bool
  findings : Findings
  recommendations : List String
  actionsTaken : List String
  metricsAfter : List (String × Option ℚ)
  error : Option String
  calls : List DeployCall
deriving DecidableEq, Repr

/-- A failed Deploy branch (the `except` block of `_step_deploy`): the
exception message becomes the stage error and the actions accumulated so
far are kept. -/
def deployFail (e : String) (acts : List String) (calls : List DeployCall) :
    DeployOutcome :=
  { success := false, findings := .emptyF, recommendations := [],
    actionsTaken := acts, metricsAfter := [], error := some e, calls := calls }

/-- The body of `_step_deploy`: staging deploy, smoke tests (failure raises
and aborts before any A/B test), 10% A/B test, monitoring waits (pure time
in this embedding), then either ramp-up to production or rollback. -/
def stepDeployCore (svc : ExternalServices) : DeployOutcome :=
  match svc.deployToStaging with
  | .error e => deployFail e [] [.deployToStaging]
  | .ok _ =>
      let acts1 := ["Deployed to staging"]
      match svc.runSmokeTests with
      | .error e => deployFail e acts1 [.deployToStaging, .runSmokeTests]
      | .ok passed =>
          let acts2 := acts1 ++
            ["Smoke tests: " ++ (if passed then "PASSED" else "FAILED")]
          if passed = false then
            deployFail "Smoke tests failed, aborting deployment" acts2
              [.deployToStaging, .runSmokeTests]
          else
            match svc.startAbTest with
            | .error e =>
                deployFail e acts2
                  [.deployToStaging, .runSmokeTests, .startAbTest]
            | .ok abTestId =>
                let acts3 := acts2 ++ ["Started A/B test: " ++ abTestId]
                let calls3 := [DeployCall.deployToStaging,
                  DeployCall.runSmokeTests, DeployCall.startAbTest]
                match svc.checkAbTestResults with
                | .error e =>
                    deployFail e acts3 (calls3 ++ [.checkAbTestResults])
                | .ok abSuccess =>
                    let calls4 := calls3 ++ [DeployCall.checkAbTestResults]
                    if abSuccess then
                      match svc.updateAbTestTraffic with
                      | .error e =>
                          deployFail e acts3 (calls4 ++ [.updateAbTestTraffic])
                      | .ok _ =>
                          let acts4 := acts3 ++ ["Increased traffic to 50%"]
                          match svc.promoteToProduction with
                          | .error e =>
                              deployFail e acts4 (calls4 ++
                                [.updateAbTestTraffic, .promoteToProduction])
                          | .ok _ =>
                              let acts5 := acts4 ++
                                ["Promoted to 100% production traffic"]
                              match svc.getLiveMetrics with
                              | .error e =>
                                  deployFail e acts5 (calls4 ++
                                    [.updateAbTestTraffic,
                                     .promoteToProduction, .getLiveMetrics])
                              | .ok live =>
                                  { success := true,
                                    findings := .deployF abTestId "complete",
                                    recommendations := [],
                                    actionsTaken := acts5,
                                    metricsAfter := live.map
                                      (fun p => (p.1, some p.2)),
                                    error := none,
                                    calls := calls4 ++
                                      [.updateAbTestTraffic,
                                       .promoteToProduction, .getLiveMetrics] }
                    else
                      match svc.rollback with
                      | .error e =>
                          deployFail e acts3 (calls4 ++ [.rollback])
                      | .ok _ =>
                          { success := false,
                            findings := .deployF abTestId "rolled_back",
                            recommendations :=
                              ["Review and fix issues before retrying"],
                            actionsTaken := acts3 ++
                              ["Rolled back due to A/B test failure"],
                            metricsAfter := [],
                            error := some
                              "A/B test results did not meet success criteria",
                            calls := calls4 ++ [.rollback] }

/-- `OptimizationRunner._step_deploy`, returning the stage result together
with the trace of external calls made. -/
def stepDeploy (now : Int) (svc : ExternalServices)
    (optimizeResult : OptimizationResult) :
    OptimizationResult × List DeployCall :=
  let o := stepDeployCore svc
  ({ step := .deploy, success := o.success, findings := o.findings,
     recommendations := o.recommendations, actionsTaken := o.actionsTaken,
     metricsBefore := optimizeResult.metricsBefore,
     metricsAfter := o.metricsAfter, timestamp := now, error := o.error },
   o.calls)

/-! ### `run_full_cycle` -/

/-- Behaviour of the Discord notifier as seen by `run_full_cycle`: whether
`notify_system_alert` (used by `_notify_cycle_complete`) raises when
awaited. -/
structure CycleNotifier where
  raiseCycleComplete : Bool := false
deriving DecidableEq, Repr

/-- `OptimizationRunner.run_full_cycle`: the stages run strictly in order
Analyze, Identify, Optimize, Deploy; the cycle returns early when a stage
reports `success = false` or when Identify yields no recommendations.  A
raise out of `_notify_cycle_complete` is caught by the top-level `except`,
which re-raises after the system alert (`Except.error`). -/
def runFullCycle (now : Int) (svc : ExternalServices)
    (discord : Option CycleNotifier) :
    Except String (List OptimizationResult) :=
  let aRes := stepAnalyze now svc
  if aRes.success = false then .ok [aRes]
  else
    let iRes := stepIdentify now aRes
    if iRes.success = false then .ok [aRes, iRes]
    else if iRes.recommendations = [] then .ok [aRes, iRes]
    else
      let oRes := stepOptimize now svc iRes
      if oRes.success = false then .ok [aRes, iRes, oRes]
      else
        let dRes := (stepDeploy now svc oRes).1
        match discord with
        | some nb =>
            if nb.raiseCycleComplete then
              .error "notify_system_alert raised in _notify_cycle_complete"
            else .ok [aRes, iRes, oRes, dRes]
        | none => .ok [aRes, iRes, oRes, dRes]

/-! ## Performance analyzer (`performance_analyzer.py`) -/

/-- The `PerformanceSnapshot` dataclass. -/
structure PerformanceSnapshot where
  timestamp : Int
  winRate : ℚ
  profitFactor : ℚ
  sharpeRatio : ℚ
  maxDrawdown : ℚ
  totalTrades : Int
  netPnl : ℚ
deriving DecidableEq, Repr

/-- The `PerformanceTrend` dataclass.  Python stores the coefficient of
variation `stdev/|mean|`; since the standard deviation is irrational in
general, this embedding stores its square `variance/mean^2`
(`volatilitySq`); `direction` and `changePercent`, the fields the claims
are about, are exact. -/
structure PerformanceTrend where
  metricName : String
  direction : String
  changePercent : ℚ
  volatilitySq : ℚ
  recentAverage : ℚ
  historicalAverage : ℚ
deriving DecidableEq, Repr

/-- Python `statistics.mean`. -/
def listMean (l : List ℚ) : ℚ := l.sum / (l.length : ℚ)

/-- Python `statistics.stdev` squared (sample variance, denominator
`n - 1`). -/
def listVariance (l : List ℚ) : ℚ :=
  if l.length ≤ 1 then 0
  else (l.map (fun x => (x - listMean l) ^ 2)).sum / ((l.length : ℚ) - 1)

/-- Python `getattr(snapshot, metric)` for the snapshot fields (the
analyzer only calls it with field names of `PerformanceSnapshot`). -/
def snapshotGet (s : PerformanceSnapshot) : String → ℚ
  | "win_rate" => s.winRate
  | "profit_factor" => s.profitFactor
  | "sharpe_ratio" => s.sharpeRatio
  | "max_drawdown" => s.maxDrawdown
  | "total_trades" => (s.totalTrades : ℚ)
  | "net_pnl" => s.netPnl
  | _ => 0

/-- The `change_pct` computation of `_calculate_trend`: mean of the later
half against mean of the earlier half, as a percentage (0 when the earlier
mean is 0). -/
def changePctOf (values : List ℚ) : ℚ :=
  let recentAvg := listMean (values.drop (values.length / 2))
  let historicalAvg := listMean (values.take (values.length / 2))
  if historicalAvg ≠ 0 then
    ((recentAvg - historicalAvg) / |historicalAvg|) * 100
  else 0

/-- The `volatility` computation of `_calculate_trend`, squared (see
`PerformanceTrend.volatilitySq`). -/
def volatilitySqOf (values : List ℚ) : ℚ :=
  if 1 < values.length then
    (if listMean values ≠ 0 then
      listVariance values / (listMean values) ^ 2
     else 0)
  else 0

/-- The body of `_calculate_trend` from the extracted value list onward:
midpoint split, half means, change percent, direction (polarity inverted
for `max_drawdown`), and volatility. -/
def calculateTrendValues (metric : String) (values : List ℚ) :
    Option PerformanceTrend :=
  let midPoint := values.length / 2
  let recent := values.drop midPoint
  let historical := values.take midPoint
  if recent = [] ∨ historical = [] then none
  else
    let changePct := changePctOf values
    let direction :=
      if |changePct| < 5 then "stable"
      else if changePct > 0 then
        (if metric ≠ "max_drawdown" then "improving" else "declining")
      else
        (if metric ≠ "max_drawdown" then "declining" else "improving")
    some ⟨metric, direction, changePct, volatilitySqOf values,
      listMean recent, listMean historical⟩

/-- `PerformanceAnalyzer._calculate_trend`. -/
def calculateTrend (snapshots : List PerformanceSnapshot) (metric : String) :
    Option PerformanceTrend :=
  if snapshots.length < 7 then none
  else calculateTrendValues metric (snapshots.map (fun s => snapshotGet s metric))

/-! ## Concrete fixtures used by witnesses and counterexamples -/

/-- A concrete hourly task as created by `add_task` callers. -/
def sampleTask : OptimizationTask :=
  { taskId := "task-1", taskType := .hyperparameter,
    componentId := "strategy-a", frequency := "hourly" }

/-- A handler registry whose handler always raises. -/
def alwaysFailHandlers (msg : String) : HandlerMap :=
  fun _ => some (fun _ => .error msg)

/-- A handler registry whose handler always succeeds with an empty payload. -/
def alwaysOkHandlers : HandlerMap :=
  fun _ => some (fun _ => .ok [])

/-- A notifier none of whose methods raise. -/
def quietNotifier : NotifierBehavior := {}

/-- A notifier whose `notify_task_completed` raises. -/
def completedRaisesNotifier : NotifierBehavior :=
  { raiseTaskCompleted := true }

/-- A snapshot with constant metrics, for trend fixtures. -/
def flatSnapshot : PerformanceSnapshot :=
  ⟨0, mkRat 1 2, 1, 1, mkRat 1 10, 10, 5⟩

/-! ## Helper lemmas -/

/-- Membership in the dispatched sublist is membership plus the due test. -/
theorem mem_processPendingTasks (now : Int) (tasks : List OptimizationTask)
    (task : OptimizationTask) :
    task ∈ processPendingTasks now tasks ↔
      task ∈ tasks ∧ isDue now task = true :=
  List.mem_filter

/-- A disabled task never passes the due test. -/
theorem isDue_eq_false_of_disabled (now : Int) (task : OptimizationTask)
    (h : task.enabled = false) : isDue now task = false := by
  simp [isDue, h]

/-- A running task never passes the due test. -/
theorem isDue_eq_false_of_running (now : Int) (task : OptimizationTask)
    (h : task.status = TaskStatus.running) : isDue now task = false := by
  simp [isDue, h]

/-- A task with no `next_run_at` never passes the due test. -/
theorem isDue_eq_false_of_noNextRun (now : Int) (task : OptimizationTask)
    (h : task.nextRunAt = none) : isDue now task = false := by
  simp [isDue, h]

/-- `_execute_task` on a task whose handler lookup fails, with no notifier:
the exact resulting state (the disable branch depends on the bumped failure
counter). -/
theorem executeTask_error_none (handlers : HandlerMap) (tS tF : Int)
    (task0 : OptimizationTask) (msg : String)
    (hl : lookupHandler handlers (startTask tS task0) = .error msg) :
    executeTask none handlers tS tF task0 =
      { task := { task0 with
          status := .failed, lastRunAt := some tS, lastError := some msg,
          consecutiveFailures := task0.consecutiveFailures + 1,
          enabled := if 5 ≤ task0.consecutiveFailures + 1 then false
            else task0.enabled },
        events := [], persisted := true, escaped := false } := by
  simp only [executeTask, executeTaskBody, hl, executeTaskExcept]
  split
  · rename_i hge
    simp only [startTask] at hge ⊢
    rw [if_pos hge]
  · rename_i hge
    simp only [startTask] at hge ⊢
    rw [if_neg hge]

/-- `_execute_task` on a task whose handler succeeds, with no notifier:
the exact resulting state. -/
theorem executeTask_ok_none (handlers : HandlerMap) (tS tF : Int)
    (task0 : OptimizationTask) (res : Dict)
    (hl : lookupHandler handlers (startTask tS task0) = .ok res) :
    executeTask none handlers tS tF task0 =
      { task := { task0 with
          status := .completed, lastRunAt := some tS,
          lastResult := some res, consecutiveFailures := 0,
          nextRunAt := some (calculateNextRun tF task0.frequency) },
        events := [], persisted := true, escaped := false } := by
  simp only [executeTask, executeTaskBody, hl]
  rfl

/-- Everything the due test implies about a dispatched task. -/
theorem isDue_spec (now : Int) (task : OptimizationTask)
    (h : isDue now task = true) :
    task.enabled = true ∧ task.status ≠ TaskStatus.running ∧
      ∃ t, task.nextRunAt = some t ∧ t ≤ now := by
  unfold isDue at h
  split at h
  · exact absurd h (by simp)
  · split at h
    · exact absurd h (by simp)
    · rename_i hen hrun
      refine ⟨by simpa using hen, hrun, ?_⟩
      cases hnr : task.nextRunAt with
      | none => rw [hnr] at h; exact absurd h (by simp)
      | some t =>
          rw [hnr] at h
          exact ⟨t, rfl, of_decide_eq_true h⟩

/-- `_execute_task` with a present, non-raising notifier and a successful
handler: same final state as with no notifier, plus the started/completed
notifications. -/
theorem executeTask_ok_quiet (nb : NotifierBehavior)
    (h1 : nb.raiseTaskStarted = false) (h2 : nb.raiseTaskCompleted = false)
    (handlers : HandlerMap) (tS tF : Int) (task0 : OptimizationTask)
    (res : Dict)
    (hl : lookupHandler handlers (startTask tS task0) = .ok res) :
    executeTask (some nb) handlers tS tF task0 =
      { task := { task0 with
          status := .completed, lastRunAt := some tS,
          lastResult := some res, consecutiveFailures := 0,
          nextRunAt := some (calculateNextRun tF task0.frequency) },
        events := [Event.taskStarted, Event.taskCompleted],
        persisted := true, escaped := false } := by
  simp only [executeTask, h1, Bool.false_eq_true, if_false, executeTaskBody,
    hl, h2]
  rfl

/-- `_execute_task` with a present, non-raising notifier and a failing
handler: same final state as with no notifier, plus the notifications
(disable notification exactly when the bumped counter reaches 5). -/
theorem executeTask_error_quiet (nb : NotifierBehavior)
    (h1 : nb.raiseTaskStarted = false) (h3 : nb.raiseTaskFailed = false)
    (h4 : nb.raiseTaskDisabled = false)
    (handlers : HandlerMap) (tS tF : Int) (task0 : OptimizationTask)
    (msg : String)
    (hl : lookupHandler handlers (startTask tS task0) = .error msg) :
    executeTask (some nb) handlers tS tF task0 =
      { task := { task0 with
          status := .failed, lastRunAt := some tS, lastError := some msg,
          consecutiveFailures := task0.consecutiveFailures + 1,
          enabled := if 5 ≤ task0.consecutiveFailures + 1 then false
            else task0.enabled },
        events := if 5 ≤ task0.consecutiveFailures + 1 then
            [Event.taskStarted, Event.taskFailed, Event.taskDisabled]
          else [Event.taskStarted, Event.taskFailed],
        persisted := true, escaped := false } := by
  simp only [executeTask, h1, Bool.false_eq_true, if_false, executeTaskBody,
    hl, executeTaskExcept, h3, h4]
  split
  · rename_i hge
    simp only [startTask] at hge ⊢
    rw [if_pos hge, if_pos hge]
    rfl
  · rename_i hge
    simp only [startTask] at hge ⊢
    rw [if_neg hge, if_neg hge]
    rfl

/-- The Analyze stage always tags its result with step `analyze`. -/
theorem stepAnalyze_step (now : Int) (svc : ExternalServices) :
    (stepAnalyze now svc).step = .analyze := by
  unfold stepAnalyze
  split <;> rfl

/-- The Identify stage always tags its result with step `identify`. -/
theorem stepIdentify_step (now : Int) (r : OptimizationResult) :
    (stepIdentify now r).step = .identify := rfl

/-- The Optimize stage always tags its result with step `optimize`. -/
theorem stepOptimize_step (now : Int) (svc : ExternalServices)
    (r : OptimizationResult) : (stepOptimize now svc r).step = .optimize := by
  unfold stepOptimize
  split <;> rfl

/-- The Deploy stage always tags its result with step `deploy`. -/
theorem stepDeploy_step (now : Int) (svc : ExternalServices)
    (r : OptimizationResult) : (stepDeploy now svc r).1.step = .deploy := rfl

/-! ## Claims -/

/-- Claim C1: the poll scan (`_process_pending_tasks`) never dispatches a
task whose status is running or whose enabled flag is false, regardless of
whether its `next_run_at` is due; and an execution whose handler fails with
the failure counter reaching 5 leaves the task disabled, after which no
subsequent poll dispatches it. -/
theorem poll_never_dispatches_running_or_disabled :
    (∀ (now : Int) (tasks : List OptimizationTask) (task : OptimizationTask),
      task.status = TaskStatus.running ∨ task.enabled = false →
      task ∉ processPendingTasks now tasks) ∧
    (∀ (handlers : HandlerMap) (tS tF : Int) (task0 : OptimizationTask)
      (msg : String),
      lookupHandler handlers (startTask tS task0) = .error msg →
      4 ≤ task0.consecutiveFailures →
      (executeTask none handlers tS tF task0).task.enabled = false ∧
      ∀ (now : Int) (tasks : List OptimizationTask),
        (executeTask none handlers tS tF task0).task ∉
          processPendingTasks now tasks) := by
  constructor
  · intro now tasks task h hmem
    have hd := (mem_processPendingTasks now tasks task).mp hmem
    rcases h with h | h
    · rw [isDue_eq_false_of_running now task h] at hd
      exact Bool.false_ne_true hd.2
    · rw [isDue_eq_false_of_disabled now task h] at hd
      exact Bool.false_ne_true hd.2
  · intro handlers tS tF task0 msg hl hcf
    have hen : (executeTask none handlers tS tF task0).task.enabled = false := by
      rw [executeTask_error_none handlers tS tF task0 msg hl]
      exact if_pos (by omega)
    refine ⟨hen, ?_⟩
    intro now tasks hmem
    have hd := (mem_processPendingTasks now tasks _).mp hmem
    rw [isDue_eq_false_of_disabled now _ hen] at hd
    exact Bool.false_ne_true hd.2

/-- Witness for C1 at concrete inputs: a running copy of the sample task is
not dispatched, and a fifth consecutive failure leaves the task disabled. -/
theorem poll_never_dispatches_running_or_disabled_witness :
    ({ sampleTask with status := TaskStatus.running } ∉
      processPendingTasks 0
        [{ sampleTask with status := TaskStatus.running }]) ∧
    (lookupHandler (alwaysFailHandlers "boom")
        (startTask 0 { sampleTask with consecutiveFailures := 4 }) =
      .error "boom" ∧
     4 ≤ ({ sampleTask with
        consecutiveFailures := 4 } : OptimizationTask).consecutiveFailures ∧
     (executeTask none (alwaysFailHandlers "boom") 0 0
        { sampleTask with consecutiveFailures := 4 }).task.enabled = false) := by
  refine ⟨?_, rfl, by decide, ?_⟩
  · exact poll_never_dispatches_running_or_disabled.1 0 _ _ (Or.inl rfl)
  · exact (poll_never_dispatches_running_or_disabled.2
      (alwaysFailHandlers "boom") 0 0 _ "boom" rfl (by decide)).1

/-- Claim C10: a task whose `next_run_at` is `None` is never dispatched by
the poll scan even when enabled and not running; only tasks with a non-null
`next_run_at` at or before the current time are dispatched. -/
theorem poll_requires_due_next_run :
    (∀ (now : Int) (tasks : List OptimizationTask) (task : OptimizationTask),
      task.nextRunAt = none → task ∉ processPendingTasks now tasks) ∧
    (∀ (now : Int) (tasks : List OptimizationTask) (task : OptimizationTask),
      task ∈ processPendingTasks now tasks →
      ∃ t, task.nextRunAt = some t ∧ t ≤ now) := by
  constructor
  · intro now tasks task h hmem
    have hd := (mem_processPendingTasks now tasks task).mp hmem
    rw [isDue_eq_false_of_noNextRun now task h] at hd
    exact Bool.false_ne_true hd.2
  · intro now tasks task hmem
    have hd := (mem_processPendingTasks now tasks task).mp hmem
    exact (isDue_spec now task hd.2).2.2

/-- Witness for C10 at concrete inputs: the sample task with no
`next_run_at` (enabled, pending) is not dispatched, and a dispatched task
has a due `next_run_at`. -/
theorem poll_requires_due_next_run_witness :
    (sampleTask.nextRunAt = none ∧
      sampleTask ∉ processPendingTasks 0 [sampleTask]) ∧
    ({ sampleTask with nextRunAt := some 0 } ∈
      processPendingTasks 0 [{ sampleTask with nextRunAt := some 0 }] ∧
     ∃ t, ({ sampleTask with
        nextRunAt := some 0 } : OptimizationTask).nextRunAt = some t ∧
        t ≤ (0 : Int)) := by
  have hmem : { sampleTask with nextRunAt := some 0 } ∈
      processPendingTasks 0 [{ sampleTask with nextRunAt := some 0 }] := by
    decide
  refine ⟨⟨rfl, poll_requires_due_next_run.1 0 _ _ rfl⟩, hmem, ?_⟩
  exact poll_requires_due_next_run.2 0 _ _ hmem

/-- Claim C2 (amended): `_calculate_next_run` adds exactly the frequency
offset (hourly 1h, daily 1d, weekly 7d, minute 1min) to the `utcnow()` at
which it is called; after a successful execution `next_run_at` equals the
success-path completion time plus the offset, which equals
`last_run_at + offset` only when the completion `utcnow()` coincides with
the start `utcnow()` recorded into `last_run_at`; and `next_run_at` is
recomputed only on the success path: a failed handler execution leaves it
unchanged. -/
theorem next_run_offsets_success_only :
    (∀ t : Int, calculateNextRun t "hourly" = t + 3600 ∧
      calculateNextRun t "daily" = t + 86400 ∧
      calculateNextRun t "weekly" = t + 604800 ∧
      calculateNextRun t "minute" = t + 60) ∧
    (∀ (handlers : HandlerMap) (tS tF : Int) (task0 : OptimizationTask)
      (res : Dict),
      lookupHandler handlers (startTask tS task0) = .ok res →
      (executeTask none handlers tS tF task0).task.nextRunAt =
        some (calculateNextRun tF task0.frequency) ∧
      (executeTask none handlers tS tF task0).task.lastRunAt = some tS) ∧
    (∀ (handlers : HandlerMap) (tS tF : Int) (task0 : OptimizationTask)
      (msg : String),
      lookupHandler handlers (startTask tS task0) = .error msg →
      (executeTask none handlers tS tF task0).task.nextRunAt =
        task0.nextRunAt) := by
  refine ⟨fun t => ⟨rfl, rfl, rfl, rfl⟩, ?_, ?_⟩
  · intro handlers tS tF task0 res hl
    rw [executeTask_ok_none handlers tS tF task0 res hl]
    exact ⟨rfl, rfl⟩
  · intro handlers tS tF task0 msg hl
    rw [executeTask_error_none handlers tS tF task0 msg hl]

/-- Witness for the amended C2 at concrete inputs. -/
theorem next_run_offsets_success_only_witness :
    (calculateNextRun 0 "hourly" = 0 + 3600) ∧
    (lookupHandler alwaysOkHandlers (startTask 0 sampleTask) = .ok [] ∧
     (executeTask none alwaysOkHandlers 0 1 sampleTask).task.nextRunAt =
       some (calculateNextRun 1 sampleTask.frequency)) ∧
    (lookupHandler (alwaysFailHandlers "boom")
        (startTask 0 sampleTask) = .error "boom" ∧
     (executeTask none (alwaysFailHandlers "boom") 0 1
        sampleTask).task.nextRunAt = sampleTask.nextRunAt) := by
  refine ⟨(next_run_offsets_success_only.1 0).1, ⟨rfl, ?_⟩, ⟨rfl, ?_⟩⟩
  · exact (next_run_offsets_success_only.2.1 alwaysOkHandlers 0 1
      sampleTask [] rfl).1
  · exact next_run_offsets_success_only.2.2 (alwaysFailHandlers "boom") 0 1
      sampleTask "boom" rfl

/-- Claim C3 (amended): a notifier none of whose methods raise leaves the
engine's task state, persistence and escape behaviour identical to running
with no notifier at all, and leaves the pipeline result list of
`run_full_cycle` identical to running with no notifier; a notifier method
that does raise can alter them (see the counterexample: a raising
`notify_task_completed` records a successful execution as failed and
increments `consecutive_failures`). -/
theorem notifier_isolation_when_not_raising :
    (∀ (nb : NotifierBehavior) (handlers : HandlerMap) (tS tF : Int)
      (task0 : OptimizationTask),
      nb.raiseTaskStarted = false → nb.raiseTaskCompleted = false →
      nb.raiseTaskFailed = false → nb.raiseTaskDisabled = false →
      (executeTask (some nb) handlers tS tF task0).task =
        (executeTask none handlers tS tF task0).task ∧
      (executeTask (some nb) handlers tS tF task0).persisted =
        (executeTask none handlers tS tF task0).persisted ∧
      (executeTask (some nb) handlers tS tF task0).escaped =
        (executeTask none handlers tS tF task0).escaped) ∧
    (∀ (now : Int) (svc : ExternalServices) (nb : CycleNotifier),
      nb.raiseCycleComplete = false →
      runFullCycle now svc (some nb) = runFullCycle now svc none) := by
  constructor
  · intro nb handlers tS tF task0 h1 h2 h3 h4
    cases hl : lookupHandler handlers (startTask tS task0) with
    | ok res =>
        rw [executeTask_ok_quiet nb h1 h2 handlers tS tF task0 res hl,
          executeTask_ok_none handlers tS tF task0 res hl]
        exact ⟨rfl, rfl, rfl⟩
    | error msg =>
        rw [executeTask_error_quiet nb h1 h3 h4 handlers tS tF task0 msg hl,
          executeTask_error_none handlers tS tF task0 msg hl]
        exact ⟨rfl, rfl, rfl⟩
  · intro now svc nb hnb
    unfold runFullCycle
    by_cases ha : (stepAnalyze now svc).success = false
    · simp [ha]
    · simp only [if_neg ha]
      by_cases hi : (stepIdentify now (stepAnalyze now svc)).success = false
      · simp [hi]
      · simp only [if_neg hi]
        by_cases hr :
          (stepIdentify now (stepAnalyze now svc)).recommendations = []
        · simp [hr]
        · simp only [if_neg hr]
          by_cases ho : (stepOptimize now svc
            (stepIdentify now (stepAnalyze now svc))).success = false
          · simp [ho]
          · simp [if_neg ho, hnb]

/-- Witness for the amended C3 at concrete inputs: the quiet notifier gives
the same task state as no notifier, and the same full-cycle result list. -/
theorem notifier_isolation_when_not_raising_witness :
    (quietNotifier.raiseTaskStarted = false ∧
     (executeTask (some quietNotifier) alwaysOkHandlers 0 1 sampleTask).task =
       (executeTask none alwaysOkHandlers 0 1 sampleTask).task) ∧
    runFullCycle 0 defaultServices (some {}) =
      runFullCycle 0 defaultServices none := by
  exact ⟨⟨rfl, (notifier_isolation_when_not_raising.1 quietNotifier
      alwaysOkHandlers 0 1 sampleTask rfl rfl rfl rfl).1⟩,
    notifier_isolation_when_not_raising.2 0 defaultServices {} rfl⟩

/-- Claim C3 counterexample: with a notifier whose `notify_task_completed`
raises, a successful execution of the sample task ends with
`status = failed` and `consecutive_failures = 1`, while the same execution
with a non-raising notifier ends `completed` with counter 0 - the task
states differ, so a notifier failure does alter task state. -/
theorem notifier_failure_alters_task_state :
    (executeTask (some completedRaisesNotifier) alwaysOkHandlers 0 0
      sampleTask).task.status = TaskStatus.failed ∧
    (executeTask (some completedRaisesNotifier) alwaysOkHandlers 0 0
      sampleTask).task.consecutiveFailures = 1 ∧
    (executeTask (some quietNotifier) alwaysOkHandlers 0 0
      sampleTask).task.status = TaskStatus.completed ∧
    (executeTask (some completedRaisesNotifier) alwaysOkHandlers 0 0
        sampleTask).task ≠
      (executeTask (some quietNotifier) alwaysOkHandlers 0 0
        sampleTask).task := by
  exact ⟨rfl, rfl, rfl, by decide⟩

/-- Claim C5: executing a task whose handler always fails 5 times in
sequence, from a clean counter with a present non-raising notifier, ends
with the task disabled at `consecutive_failures = 5`, having delivered one
task-failed notification per execution and exactly one task-disabled
notification (none during the first four executions). -/
theorem five_failures_disable_once :
    ∀ (nb : NotifierBehavior) (tS tF : Int) (task0 : OptimizationTask)
      (msg : String),
      nb.raiseTaskStarted = false → nb.raiseTaskCompleted = false →
      nb.raiseTaskFailed = false → nb.raiseTaskDisabled = false →
      task0.consecutiveFailures = 0 → task0.enabled = true →
      ((executeTimes (some nb) (alwaysFailHandlers msg) tS tF 5
          task0).1.enabled = false ∧
       (executeTimes (some nb) (alwaysFailHandlers msg) tS tF 5
          task0).1.consecutiveFailures = 5 ∧
       (executeTimes (some nb) (alwaysFailHandlers msg) tS tF 5
          task0).2.count Event.taskFailed = 5 ∧
       (executeTimes (some nb) (alwaysFailHandlers msg) tS tF 5
          task0).2.count Event.taskDisabled = 1) ∧
      ((executeTimes (some nb) (alwaysFailHandlers msg) tS tF 4
          task0).2.count Event.taskDisabled = 0 ∧
       (executeTimes (some nb) (alwaysFailHandlers msg) tS tF 4
          task0).1.enabled = true) := by
  intro nb tS tF task0 msg h1 h2 h3 h4 h0 hen
  have key : ∀ t : OptimizationTask,
      executeTask (some nb) (alwaysFailHandlers msg) tS tF t =
        { task := { t with
            status := .failed, lastRunAt := some tS, lastError := some msg,
            consecutiveFailures := t.consecutiveFailures + 1,
            enabled := if 5 ≤ t.consecutiveFailures + 1 then false
              else t.enabled },
          events := if 5 ≤ t.consecutiveFailures + 1 then
              [Event.taskStarted, Event.taskFailed, Event.taskDisabled]
            else [Event.taskStarted, Event.taskFailed],
          persisted := true, escaped := false } :=
    fun t => executeTask_error_quiet nb h1 h3 h4 (alwaysFailHandlers msg)
      tS tF t msg rfl
  simp only [executeTimes, key, h0, hen]
  norm_num [List.count_cons, List.count_append, List.count_nil]
  decide

/-- Witness for C5 at concrete inputs. -/
theorem five_failures_disable_once_witness :
    (quietNotifier.raiseTaskStarted = false ∧
     sampleTask.consecutiveFailures = 0 ∧ sampleTask.enabled = true) ∧
    ((executeTimes (some quietNotifier) (alwaysFailHandlers "boom") 0 0 5
        sampleTask).1.enabled = false ∧
     (executeTimes (some quietNotifier) (alwaysFailHandlers "boom") 0 0 5
        sampleTask).1.consecutiveFailures = 5 ∧
     (executeTimes (some quietNotifier) (alwaysFailHandlers "boom") 0 0 5
        sampleTask).2.count Event.taskFailed = 5 ∧
     (executeTimes (some quietNotifier) (alwaysFailHandlers "boom") 0 0 5
        sampleTask).2.count Event.taskDisabled = 1) := by
  exact ⟨⟨rfl, rfl, rfl⟩, (five_failures_disable_once quietNotifier 0 0
    sampleTask "boom" rfl rfl rfl rfl rfl rfl).1⟩

/-- Claim C2 counterexample: executing the hourly sample task with start
time 0 and success-path completion time 1 yields
`next_run_at = 3601 ≠ last_run_at + 3600`: the offset is added to a fresh
`utcnow()`, not to `last_run_at`. -/
theorem next_run_differs_from_last_run_plus_offset :
    (executeTask none alwaysOkHandlers 0 1 sampleTask).task.lastRunAt =
      some 0 ∧
    (executeTask none alwaysOkHandlers 0 1 sampleTask).task.nextRunAt =
      some 3601 ∧
    (executeTask none alwaysOkHandlers 0 1 sampleTask).task.nextRunAt ≠
      some (0 + 3600) := by
  exact ⟨rfl, rfl, by decide⟩

/-- Claim C4: `run_full_cycle` runs the stages strictly in the order
Analyze, Identify, Optimize, Deploy (the step tags of the returned list
always form a prefix of that order), short-circuits so that a stage with
`success = false` is the last entry of the returned list, and when Identify
succeeds with zero recommendations the returned list is exactly the
Analyze and Identify results (neither Optimize nor Deploy executes - a
stage executes exactly when its result is appended to the list). -/
theorem cycle_order_and_short_circuit :
    ∀ (now : Int) (svc : ExternalServices),
      (∀ rs, runFullCycle now svc none = .ok rs →
        rs.map (fun r => r.step) ∈
          [[OptimizationStep.analyze],
           [OptimizationStep.analyze, OptimizationStep.identify],
           [OptimizationStep.analyze, OptimizationStep.identify,
            OptimizationStep.optimize],
           [OptimizationStep.analyze, OptimizationStep.identify,
            OptimizationStep.optimize, OptimizationStep.deploy]] ∧
        ∀ r ∈ rs, r.success = false → rs.getLast? = some r) ∧
      ((stepAnalyze now svc).success = true →
       (stepIdentify now (stepAnalyze now svc)).success = true →
       (stepIdentify now (stepAnalyze now svc)).recommendations = [] →
       runFullCycle now svc none =
         .ok [stepAnalyze now svc,
           stepIdentify now (stepAnalyze now svc)]) := by
  intro now svc
  constructor
  · intro rs hrs
    simp only [runFullCycle] at hrs
    by_cases ha : (stepAnalyze now svc).success = false
    · rw [if_pos ha] at hrs
      obtain rfl : [stepAnalyze now svc] = rs := by injection hrs
      refine ⟨by simp [stepAnalyze_step], ?_⟩
      intro r hr hfail
      simp only [List.mem_singleton] at hr
      subst hr
      rfl
    · rw [if_neg ha] at hrs
      have hA : (stepAnalyze now svc).success = true := by simpa using ha
      by_cases hi : (stepIdentify now (stepAnalyze now svc)).success = false
      · rw [if_pos hi] at hrs
        obtain rfl : [stepAnalyze now svc,
            stepIdentify now (stepAnalyze now svc)] = rs := by injection hrs
        refine ⟨by simp [stepAnalyze_step, stepIdentify_step], ?_⟩
        intro r hr hfail
        simp only [List.mem_cons, List.not_mem_nil, or_false] at hr
        rcases hr with hr | hr
        · rw [hr] at hfail
          rw [hA] at hfail
          exact absurd hfail (by simp)
        · rw [hr]
          rfl
      · rw [if_neg hi] at hrs
        have hI : (stepIdentify now (stepAnalyze now svc)).success = true := by
          simpa using hi
        by_cases hr0 :
            (stepIdentify now (stepAnalyze now svc)).recommendations = []
        · rw [if_pos hr0] at hrs
          obtain rfl : [stepAnalyze now svc,
              stepIdentify now (stepAnalyze now svc)] = rs := by injection hrs
          refine ⟨by simp [stepAnalyze_step, stepIdentify_step], ?_⟩
          intro r hr hfail
          simp only [List.mem_cons, List.not_mem_nil, or_false] at hr
          rcases hr with hr | hr
          · rw [hr, hA] at hfail
            exact absurd hfail (by simp)
          · rw [hr, hI] at hfail
            exact absurd hfail (by simp)
        · rw [if_neg hr0] at hrs
          by_cases ho : (stepOptimize now svc
              (stepIdentify now (stepAnalyze now svc))).success = false
          · rw [if_pos ho] at hrs
            obtain rfl : [stepAnalyze now svc,
                stepIdentify now (stepAnalyze now svc),
                stepOptimize now svc
                  (stepIdentify now (stepAnalyze now svc))] = rs := by
              injection hrs
            refine ⟨by simp [stepAnalyze_step, stepIdentify_step,
              stepOptimize_step], ?_⟩
            intro r hr hfail
            simp only [List.mem_cons, List.not_mem_nil, or_false] at hr
            rcases hr with hr | hr | hr
            · rw [hr, hA] at hfail
              exact absurd hfail (by simp)
            · rw [hr, hI] at hfail
              exact absurd hfail (by simp)
            · rw [hr]
              rfl
          · rw [if_neg ho] at hrs
            have hO : (stepOptimize now svc
                (stepIdentify now (stepAnalyze now svc))).success = true := by
              simpa using ho
            obtain rfl : [stepAnalyze now svc,
                stepIdentify now (stepAnalyze now svc),
                stepOptimize now svc
                  (stepIdentify now (stepAnalyze now svc)),
                (stepDeploy now svc (stepOptimize now svc
                  (stepIdentify now (stepAnalyze now svc)))).1] = rs := by
              injection hrs
            refine ⟨by simp [stepAnalyze_step, stepIdentify_step,
              stepOptimize_step, stepDeploy_step], ?_⟩
            intro r hr hfail
            simp only [List.mem_cons, List.not_mem_nil, or_false] at hr
            rcases hr with hr | hr | hr | hr
            · rw [hr, hA] at hfail
              exact absurd hfail (by simp)
            · rw [hr, hI] at hfail
              exact absurd hfail (by simp)
            · rw [hr, hO] at hfail
              exact absurd hfail (by simp)
            · rw [hr]
              rfl
  · intro hA hI hR
    simp only [runFullCycle]
    rw [if_neg (by simp [hA]), if_neg (by simp [hI]), if_pos hR]

/-- Witness for C4 at concrete inputs: with the placeholder services the
cycle stops after Identify (no recommendations) with exactly the Analyze
and Identify entries, whose step tags are a prefix of the stage order. -/
theorem cycle_order_and_short_circuit_witness :
    runFullCycle 0 defaultServices none =
      .ok [stepAnalyze 0 defaultServices,
        stepIdentify 0 (stepAnalyze 0 defaultServices)] ∧
    [stepAnalyze 0 defaultServices,
      stepIdentify 0 (stepAnalyze 0 defaultServices)].map (fun r => r.step) ∈
      [[OptimizationStep.analyze],
       [OptimizationStep.analyze, OptimizationStep.identify],
       [OptimizationStep.analyze, OptimizationStep.identify,
        OptimizationStep.optimize],
       [OptimizationStep.analyze, OptimizationStep.identify,
        OptimizationStep.optimize, OptimizationStep.deploy]] ∧
    ((stepAnalyze 0 defaultServices).success = true ∧
     (stepIdentify 0 (stepAnalyze 0 defaultServices)).success = true ∧
     (stepIdentify 0 (stepAnalyze 0 defaultServices)).recommendations = []) := by
  have heq := (cycle_order_and_short_circuit 0 defaultServices).2 rfl rfl
    (by decide)
  exact ⟨heq, ((cycle_order_and_short_circuit 0 defaultServices).1 _ heq).1,
    rfl, rfl, by decide⟩

/-- Claim C6: when the smoke tests of the Deploy stage fail, the stage
returns `success = false` immediately with the descriptive error of the
raised exception, and neither `_start_ab_test` nor `_rollback` is ever
called (the call trace is exactly staging deploy then smoke tests). -/
theorem smoke_failure_aborts_deploy :
    ∀ (now : Int) (svc : ExternalServices) (optR : OptimizationResult),
      svc.deployToStaging = .ok () → svc.runSmokeTests = .ok false →
      (stepDeploy now svc optR).1.success = false ∧
      (stepDeploy now svc optR).1.error =
        some "Smoke tests failed, aborting deployment" ∧
      DeployCall.startAbTest ∉ (stepDeploy now svc optR).2 ∧
      DeployCall.rollback ∉ (stepDeploy now svc optR).2 ∧
      (stepDeploy now svc optR).2 =
        [DeployCall.deployToStaging, DeployCall.runSmokeTests] := by
  intro now svc optR h1 h2
  have hc : stepDeployCore svc =
      deployFail "Smoke tests failed, aborting deployment"
        (["Deployed to staging"] ++ ["Smoke tests: " ++ "FAILED"])
        [DeployCall.deployToStaging, DeployCall.runSmokeTests] := by
    unfold stepDeployCore
    rw [h1, h2]
    rfl
  have h5 : (stepDeploy now svc optR).2 =
      [DeployCall.deployToStaging, DeployCall.runSmokeTests] := by
    simp only [stepDeploy, hc]
    rfl
  refine ⟨?_, ?_, ?_, ?_, h5⟩
  · simp only [stepDeploy, hc]
    rfl
  · simp only [stepDeploy, hc]
    rfl
  · rw [h5]
    decide
  · rw [h5]
    decide

/-- The placeholder services with failing smoke tests, for the C6
witness. -/
def smokeFailServices : ExternalServices :=
  { defaultServices with runSmokeTests := .ok false }

/-- Witness for C6 at concrete inputs. -/
theorem smoke_failure_aborts_deploy_witness :
    (smokeFailServices.deployToStaging = .ok () ∧
     smokeFailServices.runSmokeTests = .ok false) ∧
    ((stepDeploy 0 smokeFailServices
        (stepAnalyze 0 defaultServices)).1.success = false ∧
     (stepDeploy 0 smokeFailServices
        (stepAnalyze 0 defaultServices)).1.error =
       some "Smoke tests failed, aborting deployment" ∧
     DeployCall.startAbTest ∉
       (stepDeploy 0 smokeFailServices (stepAnalyze 0 defaultServices)).2 ∧
     DeployCall.rollback ∉
       (stepDeploy 0 smokeFailServices (stepAnalyze 0 defaultServices)).2) := by
  have h := smoke_failure_aborts_deploy 0 smokeFailServices
    (stepAnalyze 0 defaultServices) rfl rfl
  exact ⟨⟨rfl, rfl⟩, h.1, h.2.1, h.2.2.1, h.2.2.2.1⟩

/-- A prefix of a list stays a prefix after appending on the right. -/
theorem listPrefixEq_append : ∀ (p l m : List Char),
    listPrefixEq p l = true → listPrefixEq p (l ++ m) = true
  | [], _, _, _ => rfl
  | _ :: _, [], _, h => absurd h (by simp [listPrefixEq])
  | a :: p, b :: l, m, h => by
      simp only [listPrefixEq, Bool.and_eq_true] at h
      simp only [List.cons_append, listPrefixEq, Bool.and_eq_true]
      exact ⟨h.1, listPrefixEq_append p l m h.2⟩

/-- A Python `startswith` surviving two right-appends, used for the
recommendation strings `prefix ++ formatted number ++ suffix`. -/
theorem strStartsWith_append2 (pre mid suf pat : String)
    (h : strStartsWith pre pat = true) :
    strStartsWith (pre ++ mid ++ suf) pat = true := by
  unfold strStartsWith at h ⊢
  rw [String.data_append, String.data_append]
  exact listPrefixEq_append _ _ _ (listPrefixEq_append _ _ _ h)

/-- Claim C7: when Identify receives `metrics_before` with
win_rate_7d = 0.40, max_drawdown = 0.20, model_accuracy = 0.50 and
sharpe_ratio = 0.3, and the analysis findings contain no regime with win
rate below 0.40 and no stale `last_trained`, then Identify succeeds and
emits exactly 4 recommendations, each starting with "CRITICAL". -/
theorem identify_emits_four_critical :
    ∀ (now : Int) (aRes : OptimizationResult) (d : AnalyzeData),
      aRes.findings = Findings.analyzeF d →
      metricsGetD aRes.metricsBefore "win_rate_7d" (mkRat 1 2) =
        mkRat 40 100 →
      metricsGetD aRes.metricsBefore "max_drawdown" 0 = mkRat 20 100 →
      metricsGetD aRes.metricsBefore "model_accuracy" (mkRat 6 10) =
        mkRat 50 100 →
      metricsGetD aRes.metricsBefore "sharpe_ratio" 1 = mkRat 3 10 →
      (∀ p ∈ d.regimePerformance,
        ¬(metricsGetD p.2 "win_rate" (mkRat 1 2) < mkRat 40 100)) →
      (∀ lt, d.lastTrained = some lt → ¬((now - lt).fdiv 86400 > 30)) →
      (stepIdentify now aRes).success = true ∧
      (stepIdentify now aRes).recommendations.length = 4 ∧
      ∀ r ∈ (stepIdentify now aRes).recommendations,
        strStartsWith r "CRITICAL" = true := by
  intro now aRes d hf hw hd hm hs hreg hstale
  have hregn : identifyRegimeRecs d.regimePerformance = [] := by
    unfold identifyRegimeRecs
    rw [List.filter_eq_nil_iff.mpr (fun p hp => by simpa using hreg p hp)]
    rfl
  have hstalen : identifyStaleRecs now d.lastTrained = [] := by
    unfold identifyStaleRecs
    cases hlt : d.lastTrained with
    | none => rfl
    | some lt =>
        simp only []
        rw [if_neg (hstale lt hlt)]
  have e1 : identifyWinRateRecs (mkRat 40 100) =
      ["CRITICAL: Win rate " ++ fmtPct1 (mkRat 40 100) ++
        " below threshold. Recommend hyperparameter optimization."] := by
    unfold identifyWinRateRecs
    rw [if_pos (by decide)]
  have e2 : identifyDrawdownRecs (mkRat 20 100) =
      ["CRITICAL: Max drawdown " ++ fmtPct1 (mkRat 20 100) ++
        " exceeds limit. Recommend risk parameter optimization."] := by
    unfold identifyDrawdownRecs
    rw [if_pos (by decide)]
  have e3 : identifyAccuracyRecs (mkRat 50 100) =
      ["CRITICAL: Model accuracy " ++ fmtPct1 (mkRat 50 100) ++
        " too low. Recommend model retraining."] := by
    unfold identifyAccuracyRecs
    rw [if_pos (by decide)]
  have e4 : identifySharpeRecs (mkRat 3 10) =
      ["CRITICAL: Sharpe ratio " ++ fmtFixed2 (mkRat 3 10) ++
        " below acceptable. Full strategy review needed."] := by
    unfold identifySharpeRecs
    rw [if_pos (by decide)]
  refine ⟨rfl, ?_, ?_⟩
  · simp only [stepIdentify, hf, hw, hd, hm, hs, e1, e2, e3, e4, hregn,
      hstalen]
    rfl
  · simp only [stepIdentify, hf, hw, hd, hm, hs, e1, e2, e3, e4, hregn,
      hstalen]
    intro r hr
    simp only [List.append_nil, List.cons_append, List.nil_append,
      List.mem_cons, List.not_mem_nil, or_false] at hr
    rcases hr with hr | hr | hr | hr <;>
      (subst hr; exact strStartsWith_append2 _ _ _ _ (by decide))

/-- An Analyze result carrying the metric values of the C7 scenario. -/
def criticalAnalyzeResult : OptimizationResult :=
  { step := .analyze, success := true, findings := .analyzeF {},
    recommendations := [], actionsTaken := [],
    metricsBefore := [("win_rate_7d", mkRat 40 100),
      ("max_drawdown", mkRat 20 100), ("model_accuracy", mkRat 50 100),
      ("sharpe_ratio", mkRat 3 10)],
    metricsAfter := [], timestamp := 0, error := none }

/-- Witness for C7 at concrete inputs. -/
theorem identify_emits_four_critical_witness :
    (criticalAnalyzeResult.findings = Findings.analyzeF {} ∧
     metricsGetD criticalAnalyzeResult.metricsBefore "win_rate_7d"
       (mkRat 1 2) = mkRat 40 100 ∧
     metricsGetD criticalAnalyzeResult.metricsBefore "sharpe_ratio" 1 =
       mkRat 3 10) ∧
    ((stepIdentify 0 criticalAnalyzeResult).success = true ∧
     (stepIdentify 0 criticalAnalyzeResult).recommendations.length = 4 ∧
     ∀ r ∈ (stepIdentify 0 criticalAnalyzeResult).recommendations,
       strStartsWith r "CRITICAL" = true) := by
  exact ⟨⟨rfl, rfl, rfl⟩, identify_emits_four_critical 0
    criticalAnalyzeResult {} rfl rfl rfl rfl rfl (by simp) (by simp)⟩

/-- On a value series of length at least 7, `_calculate_trend` always
produces a trend whose direction is stable exactly when the absolute change
percent is below 5. -/
theorem calculateTrendValues_spec (metric : String) (values : List ℚ)
    (h7 : 7 ≤ values.length) :
    ∃ t, calculateTrendValues metric values = some t ∧
      (t.direction = "stable" ↔ |t.changePercent| < 5) := by
  unfold calculateTrendValues
  have hrec : values.drop (values.length / 2) ≠ [] := by
    rw [Ne, List.drop_eq_nil_iff]
    omega
  have hhist : values.take (values.length / 2) ≠ [] := by
    rw [Ne, List.take_eq_nil_iff]
    push_neg
    refine ⟨by omega, ?_⟩
    intro h
    rw [h] at h7
    simp at h7
  rw [if_neg (by push_neg; exact ⟨hrec, hhist⟩)]
  refine ⟨_, rfl, ?_⟩
  dsimp only
  by_cases h5 : |changePctOf values| < 5
  · rw [if_pos h5]
    simp [h5]
  · rw [if_neg h5]
    constructor
    · intro hdir
      exfalso
      revert hdir
      split <;> split <;> simp
    · intro h
      exact absurd h h5

/-- Claim C8: for every snapshot series of length at least 7 and every
metric, `_calculate_trend` returns a trend whose direction is "stable"
exactly when the absolute change percent is below 5 (max_drawdown
included); and on the same value series the max_drawdown polarity
inversion only swaps "improving" and "declining" relative to any other
metric, never the stable cutoff. -/
theorem trend_stable_cutoff_uniform :
    (∀ (snapshots : List PerformanceSnapshot) (metric : String),
      7 ≤ snapshots.length →
      ∃ t, calculateTrend snapshots metric = some t ∧
        (t.direction = "stable" ↔ |t.changePercent| < 5)) ∧
    (∀ (values : List ℚ) (metric : String), metric ≠ "max_drawdown" →
      ∀ t t', calculateTrendValues "max_drawdown" values = some t →
        calculateTrendValues metric values = some t' →
        t.changePercent = t'.changePercent ∧
        (t.direction = "stable" ↔ t'.direction = "stable") ∧
        (t.direction = "improving" ↔ t'.direction = "declining") ∧
        (t.direction = "declining" ↔ t'.direction = "improving")) := by
  constructor
  · intro snapshots metric h7
    unfold calculateTrend
    rw [if_neg (by omega)]
    exact calculateTrendValues_spec metric
      (snapshots.map (fun s => snapshotGet s metric)) (by simpa using h7)
  · intro values metric hmet t t' ht ht'
    unfold calculateTrendValues at ht ht'
    by_cases hnil : values.drop (values.length / 2) = [] ∨
        values.take (values.length / 2) = []
    · rw [if_pos hnil] at ht
      exact absurd ht (by simp)
    · rw [if_neg hnil] at ht ht'
      injection ht with ht
      injection ht' with ht'
      subst ht
      subst ht'
      refine ⟨rfl, ?_, ?_, ?_⟩ <;>
        · dsimp only
          by_cases h5 : |changePctOf values| < 5
          · rw [if_pos h5, if_pos h5]
            try simp
          · rw [if_neg h5, if_neg h5]
            by_cases hpos : changePctOf values > 0
            · rw [if_pos hpos, if_pos hpos,
                if_neg (by simp), if_pos hmet]
              try simp
            · rw [if_neg hpos, if_neg hpos,
                if_neg (by simp), if_pos hmet]
              try simp

/-- The all-ones value series for the C8 witness. -/
def flatValues : List ℚ := [1, 1, 1, 1, 1, 1, 1]

/-- The trend `_calculate_trend` produces for `flatValues` under the
max_drawdown metric. -/
def flatTrendDD : PerformanceTrend := ⟨"max_drawdown", "stable", 0, 0, 1, 1⟩

/-- The trend `_calculate_trend` produces for `flatValues` under the
win_rate metric. -/
def flatTrendWR : PerformanceTrend := ⟨"win_rate", "stable", 0, 0, 1, 1⟩

/-- Witness for C8 at concrete inputs: a series of 7 constant snapshots. -/
theorem trend_stable_cutoff_uniform_witness :
    (7 ≤ (List.replicate 7 flatSnapshot).length ∧
     ∃ t, calculateTrend (List.replicate 7 flatSnapshot) "win_rate" =
        some t ∧ (t.direction = "stable" ↔ |t.changePercent| < 5)) ∧
    (("win_rate" : String) ≠ "max_drawdown" ∧
     calculateTrendValues "max_drawdown" flatValues = some flatTrendDD ∧
     calculateTrendValues "win_rate" flatValues = some flatTrendWR ∧
     (flatTrendDD.changePercent = flatTrendWR.changePercent ∧
      (flatTrendDD.direction = "stable" ↔ flatTrendWR.direction = "stable") ∧
      (flatTrendDD.direction = "improving" ↔
        flatTrendWR.direction = "declining") ∧
      (flatTrendDD.direction = "declining" ↔
        flatTrendWR.direction = "improving"))) := by
  have hc : changePctOf flatValues = 0 := by
    have ht : flatValues.take (flatValues.length / 2) = [(1 : ℚ), 1, 1] := rfl
    have hd2 : flatValues.drop (flatValues.length / 2) =
      [(1 : ℚ), 1, 1, 1] := rfl
    unfold changePctOf
    rw [ht, hd2]
    norm_num [listMean]
  have hv : volatilitySqOf flatValues = 0 := by
    unfold volatilitySqOf
    norm_num [flatValues, listMean, listVariance]
  have hmid : ∀ metric : String, calculateTrendValues metric flatValues =
      some ⟨metric, "stable", 0, 0, 1, 1⟩ := by
    intro metric
    unfold calculateTrendValues
    rw [if_neg (by decide)]
    rw [hc, hv]
    have hm4 : listMean (flatValues.drop (flatValues.length / 2)) = 1 := by
      rw [show flatValues.drop (flatValues.length / 2) =
        [(1 : ℚ), 1, 1, 1] from rfl]
      norm_num [listMean]
    have hm3 : listMean (flatValues.take (flatValues.length / 2)) = 1 := by
      rw [show flatValues.take (flatValues.length / 2) =
        [(1 : ℚ), 1, 1] from rfl]
      norm_num [listMean]
    rw [hm4, hm3]
    norm_num
  have hdd : calculateTrendValues "max_drawdown" flatValues =
      some flatTrendDD := hmid "max_drawdown"
  have hwr : calculateTrendValues "win_rate" flatValues =
      some flatTrendWR := hmid "win_rate"
  refine ⟨⟨by simp, trend_stable_cutoff_uniform.1 _ _ (by simp)⟩,
    by decide, hdd, hwr, ?_⟩
  exact trend_stable_cutoff_uniform.2 flatValues "win_rate" (by decide)
    flatTrendDD flatTrendWR hdd hwr

/-- Claim C9: the keyword checks of `_step_optimize` form an if/elif chain
tried in the fixed order hyperparameter, model retraining, feature,
risk-or-drawdown, strategy weight with case-insensitive substring matching
(`matchCategory` coincides with the first-match lookup over the ordered
keyword table), and per recommendation the loop body invokes exactly the
routine of the first matching keyword - none when no keyword matches. -/
theorem optimize_first_keyword_only :
    (∀ rec : String, matchCategory rec = specFirstMatch rec) ∧
    (∀ (svc : ExternalServices) (rec : String)
      (acc : List String × Optimizations),
      matchCategory rec = none → stepOptimizeCore svc [rec] acc = .ok acc) ∧
    (∀ (svc : ExternalServices) (rec : String)
      (acc : List String × Optimizations) (c : OptCategory),
      matchCategory rec = some c →
      stepOptimizeCore svc [rec] acc =
        (match invokeRoutine svc c with
         | .ok r => .ok (acc.1 ++ [actionMsg c r], applyOpt acc.2 c r)
         | .error e => .error e)) := by
  refine ⟨?_, ?_, ?_⟩
  · intro rec
    simp only [matchCategory, specFirstMatch, keywordTable, List.find?,
      List.any_cons, List.any_nil, Bool.or_false]
    by_cases k1 : strContains (strToLower rec) "hyperparameter" = true
    · simp [k1]
    · rw [Bool.not_eq_true] at k1
      simp only [k1, Bool.false_eq_true, if_false]
      by_cases k2 : strContains (strToLower rec) "model retraining" = true
      · simp [k2]
      · rw [Bool.not_eq_true] at k2
        simp only [k2, Bool.false_eq_true, if_false]
        by_cases k3 : strContains (strToLower rec) "feature" = true
        · simp [k3]
        · rw [Bool.not_eq_true] at k3
          simp only [k3, Bool.false_eq_true, if_false]
          by_cases k4 : (strContains (strToLower rec) "risk" ||
              strContains (strToLower rec) "drawdown") = true
          · simp [k4]
          · rw [Bool.not_eq_true] at k4
            simp only [k4, Bool.false_eq_true, if_false]
            by_cases k5 :
                strContains (strToLower rec) "strategy weight" = true
            · simp [k5]
            · rw [Bool.not_eq_true] at k5
              simp [k5]
  · intro svc rec acc h
    simp only [stepOptimizeCore, h]
  · intro svc rec acc c h
    simp only [stepOptimizeCore, h]
    cases invokeRoutine svc c <;> rfl

/-- Witness for C9 at concrete inputs: a recommendation with no keyword
invokes no routine, and one containing both "drawdown" and
"hyperparameter" invokes only the hyperparameter routine (the first
keyword in chain order). -/
theorem optimize_first_keyword_only_witness :
    matchCategory "Recommend hyperparameter optimization" =
      specFirstMatch "Recommend hyperparameter optimization" ∧
    (matchCategory "no matching keywords here" = none ∧
     stepOptimizeCore defaultServices ["no matching keywords here"]
       ([], emptyOptimizations) = .ok ([], emptyOptimizations)) ∧
    (matchCategory
        "CRITICAL: Max drawdown 20.0% exceeds limit. Recommend hyperparameter optimization." =
      some OptCategory.hyperparameters ∧
     stepOptimizeCore defaultServices
       ["CRITICAL: Max drawdown 20.0% exceeds limit. Recommend hyperparameter optimization."]
       ([], emptyOptimizations) =
       (match invokeRoutine defaultServices OptCategory.hyperparameters with
        | .ok r => .ok (([] : List String) ++
            [actionMsg .hyperparameters r],
            applyOpt emptyOptimizations .hyperparameters r)
        | .error e => .error e)) := by
  refine ⟨optimize_first_keyword_only.1 _, ⟨by decide, ?_⟩, by decide, ?_⟩
  · exact optimize_first_keyword_only.2.1 defaultServices _ _ (by decide)
  · exact optimize_first_keyword_only.2.2 defaultServices _ _
      OptCategory.hyperparameters (by decide)

end TradeBase
